import Mathlib

/-!
Verification development for the AI-TD-demos repository.

The repository consists of tutorial notebooks that export pre-trained
transformer models to ONNX, patch the ONNX metadata, upload the model and
tokenizer artifacts to a Teradata database via the vendor BYOM mechanism
(save_byom), and then run templated SQL statements invoking vendor table
operators (ivsm.tokenizer_encode, ivsm.IVSM_score, ivsm.tokenizer_decode,
mldb.ONNXEmbeddings, ivsm.vector_to_columns, TD_VECTORDISTANCE).

There are three notebook pipelines in the sources:
  * the T5 summarization notebook (SUMMARIZATION.ipynb, first document);
  * the English BGE embeddings / semantic-search notebook
    (second document inside the SUMMARIZATION.ipynb file);
  * the Japanese sentence-BERT embeddings / semantic-search notebook
    (src/unnamed/part_000).

Each notebook is embedded below as a list of execution steps, transcribed
cell by cell and, inside each cell, statement by statement, in source
order.  Every templated SQL string passed to tdml.execute_sql or
tdml.DataFrame.from_query is embedded as a structured statement recording
its kind, the object it creates, the tables and views its ON and FROM
clauses read, and the table-operator calls it makes together with their
USING-clause option lists.
-/

/-- A value appearing in a table operator's USING-clause option:
a quoted string, a number, or a list of quoted strings. -/
inductive OptVal where
  | str (v : String)
  | num (v : Int)
  | strs (vs : List String)
deriving DecidableEq

/-- One USING-clause option of a table operator call: a string key
applied to a value, e.g. MaxLength(512) or PadToMaxLength with True. -/
structure UsingOpt where
  key : String
  val : OptVal
deriving DecidableEq

/-- One table-operator invocation inside a SQL statement: the schema
qualifier as written in the source (empty when none), the operator name,
and its USING-clause options. -/
structure OpCall where
  schemaName : String
  opName : String
  opts : List UsingOpt
deriving DecidableEq

/-- The syntactic kind of a SQL statement. -/
inductive SqlKind where
  | createTable
  | replaceView
  | select
  | dropTableStmt
  | insertStmt
  | otherStmt
deriving DecidableEq

/-- A SQL statement executed by a notebook, as transcribed from its SQL
template string: its kind, the table or view it creates (if any), the
tables and views its ON and FROM clauses read, and its operator calls. -/
structure SqlStmt where
  kind : SqlKind
  creates : Option String
  reads : List String
  calls : List OpCall
deriving DecidableEq

/-- The engine performing a local (client-side) computation: the external
onnxruntime or Hugging Face libraries, or plain python code in the
notebook itself (a case no step of these notebooks uses). -/
inductive ExtLib where
  | onnxRuntime
  | huggingFace
  | pythonLocal
deriving DecidableEq

/-- One execution step of a notebook pipeline.  Constructors mirror the
operations actually present in the source cells; `tryExcept` exists so
that the absence of exception-handling blocks is expressible and is used
by no pipeline. -/
inductive CellStep where
  | imports
  | shellExport (outs : List String)
  | loadAndPatch (file : String) (opsetVersion irVersion : Nat)
  | fixDim (dim : String) (size : Nat)
  | removeOutputLoop (outName : String)
  | saveOnnx (file : String)
  | loadTokenizer (src : String)
  | saveTokenizer (file : String)
  | localInference (lib : ExtLib) (uses : List String)
  | pyAssign (uses : List String)
  | createContext
  | removeContext
  | saveByom (modelId file table : String)
  | dropTable (table : String) (active : Bool)
  | execSql (stmt : SqlStmt)
  | fromQuery (stmt : SqlStmt)
  | readFrame (name : String)
  | tryExcept
deriving DecidableEq

/-- SQL of the summarization notebook: replace view v_emails_tokenized as
select ... from ivsm.tokenizer_encode(on emails.emails, on (select model as
tokenizer from summarization_tokenizers) DIMENSION, USING ...). -/
def stmtTok : SqlStmt :=
  { kind := SqlKind.replaceView
    creates := some "v_emails_tokenized"
    reads := ["emails.emails", "summarization_tokenizers"]
    calls := [{ schemaName := "ivsm", opName := "tokenizer_encode"
                opts := [⟨"ColumnsToPreserve", OptVal.strs ["id", "txt"]⟩,
                         ⟨"OutputFields", OptVal.strs ["IDS", "ATTENTION_MASK"]⟩,
                         ⟨"MaxLength", OptVal.num 512⟩,
                         ⟨"PadToMaxLength", OptVal.str "True"⟩,
                         ⟨"TokenDataType", OptVal.str "INT32"⟩,
                         ⟨"Debug", OptVal.str "True"⟩] }] }

/-- SQL of the summarization notebook: replace view v_emails_encoded as
select * from ivsm.IVSM_score(on v_emails_tokenized, on
summarization_models dimension, USING ...). -/
def stmtScore : SqlStmt :=
  { kind := SqlKind.replaceView
    creates := some "v_emails_encoded"
    reads := ["v_emails_tokenized", "summarization_models"]
    calls := [{ schemaName := "ivsm", opName := "IVSM_score"
                opts := [⟨"ColumnsToPreserve", OptVal.strs ["id", "txt"]⟩,
                         ⟨"ModelType", OptVal.str "ONNX"⟩,
                         ⟨"BinaryInputFields", OptVal.strs ["input_ids", "attention_mask"]⟩,
                         ⟨"BinaryOutputFields", OptVal.strs ["sequences"]⟩,
                         ⟨"Caching", OptVal.str "interquery"⟩] }] }

/-- SQL of the summarization notebook: create table emails_processed as
(select * from ivsm.tokenizer_decode(on (select ... from v_emails_encoded),
on (select model as tokenizer from summarization_tokenizers) DIMENSION,
USING ...)) with data. -/
def stmtDecode : SqlStmt :=
  { kind := SqlKind.createTable
    creates := some "emails_processed"
    reads := ["v_emails_encoded", "summarization_tokenizers"]
    calls := [{ schemaName := "ivsm", opName := "tokenizer_decode"
                opts := [⟨"ColumnsToPreserve", OptVal.strs ["id", "txt"]⟩,
                         ⟨"TokenDataType", OptVal.str "INT32"⟩,
                         ⟨"SkipSpecialTokens", OptVal.str "False"⟩] }] }

/-- SQL of the English embeddings notebook: create table
emails_embeddings_store as (select * from mldb.ONNXEmbeddings(on
emails.emails as InputTable, on embeddings_models as ModelTable DIMENSION,
on embeddings_tokenizers as TokenizerTable DIMENSION, using ...)) with
data. -/
def stmtEmbedEn : SqlStmt :=
  { kind := SqlKind.createTable
    creates := some "emails_embeddings_store"
    reads := ["emails.emails", "embeddings_models", "embeddings_tokenizers"]
    calls := [{ schemaName := "mldb", opName := "ONNXEmbeddings"
                opts := [⟨"Accumulate", OptVal.strs ["id", "txt"]⟩,
                         ⟨"ModelOutputTensor", OptVal.str "sentence_embedding"⟩,
                         ⟨"EnableMemoryCheck", OptVal.str "false"⟩,
                         ⟨"OutputFormat", OptVal.str "FLOAT32(384)"⟩] }] }

/-- SQL of the English embeddings notebook: the SELECT run through
tdml.DataFrame.from_query joining TD_VECTORDISTANCE over the target and
reference subqueries of emails_embeddings_store with emails.emails. -/
def stmtDistEn : SqlStmt :=
  { kind := SqlKind.select
    creates := none
    reads := ["emails_embeddings_store", "emails.emails"]
    calls := [{ schemaName := "", opName := "TD_VECTORDISTANCE"
                opts := [⟨"TargetIDColumn", OptVal.str "id"⟩,
                         ⟨"TargetFeatureColumns", OptVal.str "[emb_0:emb_383]"⟩,
                         ⟨"RefIDColumn", OptVal.str "id"⟩,
                         ⟨"RefFeatureColumns", OptVal.str "[emb_0:emb_383]"⟩,
                         ⟨"DistanceMeasure", OptVal.str "cosine"⟩,
                         ⟨"topk", OptVal.num 3⟩] }] }

/-- SQL of the Japanese embeddings notebook: replace view
v_emails_tokenized_for_embeddings_jp as select ... from
ivsm.tokenizer_encode(on (select top 100 * from emails.emails_jp), on
(select model as tokenizer from embeddings_tokenizers_jp ...) DIMENSION,
USING ...). -/
def stmtTokJp : SqlStmt :=
  { kind := SqlKind.replaceView
    creates := some "v_emails_tokenized_for_embeddings_jp"
    reads := ["emails.emails_jp", "embeddings_tokenizers_jp"]
    calls := [{ schemaName := "ivsm", opName := "tokenizer_encode"
                opts := [⟨"ColumnsToPreserve", OptVal.strs ["id", "txt", "txt_jp"]⟩,
                         ⟨"OutputFields", OptVal.strs ["IDS", "ATTENTION_MASK"]⟩,
                         ⟨"MaxLength", OptVal.num 512⟩,
                         ⟨"PadToMaxLength", OptVal.str "True"⟩,
                         ⟨"TokenDataType", OptVal.str "INT64"⟩] }] }

/-- SQL of the Japanese embeddings notebook: replace view
emails_embeddings_jp as select * from ivsm.IVSM_score(on
v_emails_tokenized_for_embeddings_jp, on embeddings_models_jp dimension,
using ...). -/
def stmtScoreJp : SqlStmt :=
  { kind := SqlKind.replaceView
    creates := some "emails_embeddings_jp"
    reads := ["v_emails_tokenized_for_embeddings_jp", "embeddings_models_jp"]
    calls := [{ schemaName := "ivsm", opName := "IVSM_score"
                opts := [⟨"ColumnsToPreserve", OptVal.strs ["id", "txt", "txt_jp"]⟩,
                         ⟨"ModelType", OptVal.str "ONNX"⟩,
                         ⟨"BinaryInputFields", OptVal.strs ["input_ids", "attention_mask"]⟩,
                         ⟨"BinaryOutputFields", OptVal.strs ["sentence_embedding"]⟩,
                         ⟨"Caching", OptVal.str "inquery"⟩] }] }

/-- SQL of the Japanese embeddings notebook: create table
emails_embeddings_store_jp as (select * from ivsm.vector_to_columns(on
emails_embeddings_jp, using ...)) with data. -/
def stmtVecCols : SqlStmt :=
  { kind := SqlKind.createTable
    creates := some "emails_embeddings_store_jp"
    reads := ["emails_embeddings_jp"]
    calls := [{ schemaName := "ivsm", opName := "vector_to_columns"
                opts := [⟨"ColumnsToPreserve", OptVal.strs ["id", "txt", "txt_jp"]⟩,
                         ⟨"VectorDataType", OptVal.str "FLOAT32"⟩,
                         ⟨"VectorLength", OptVal.num 768⟩,
                         ⟨"OutputColumnPrefix", OptVal.str "emb_"⟩,
                         ⟨"InputColumnName", OptVal.str "sentence_embedding"⟩] }] }

/-- SQL of the Japanese embeddings notebook: the SELECT run through
tdml.DataFrame.from_query joining TD_VECTORDISTANCE over the target and
reference subqueries of emails_embeddings_store_jp with emails.emails_jp. -/
def stmtDistJp : SqlStmt :=
  { kind := SqlKind.select
    creates := none
    reads := ["emails_embeddings_store_jp", "emails.emails_jp"]
    calls := [{ schemaName := "", opName := "TD_VECTORDISTANCE"
                opts := [⟨"TargetIDColumn", OptVal.str "id"⟩,
                         ⟨"TargetFeatureColumns", OptVal.str "[emb_0:emb_767]"⟩,
                         ⟨"RefIDColumn", OptVal.str "id"⟩,
                         ⟨"RefFeatureColumns", OptVal.str "[emb_0:emb_767]"⟩,
                         ⟨"DistanceMeasure", OptVal.str "cosine"⟩,
                         ⟨"topk", OptVal.num 3⟩] }] }

/-- The T5 summarization notebook (first document of SUMMARIZATION.ipynb),
transcribed step by step in source order. -/
def summarizationNb : List CellStep :=
  [CellStep.imports,
   CellStep.shellExport ["t5-small-headline-generator/t5-small-headline-generator.onnx"],
   CellStep.loadAndPatch "t5-small-headline-generator/t5-small-headline-generator.onnx" 12 8,
   CellStep.fixDim "sequence_length" 512,
   CellStep.fixDim "num_return_sequences" 1,
   CellStep.fixDim "max_length" 100,
   CellStep.saveOnnx "t5-small-headline-generator/t5-small-headline-generator_fixed.onnx",
   CellStep.loadTokenizer "hub",
   CellStep.localInference ExtLib.onnxRuntime
     ["t5-small-headline-generator/t5-small-headline-generator_fixed.onnx"],
   CellStep.localInference ExtLib.onnxRuntime ["mem:tokenizer", "mem:local"],
   CellStep.saveTokenizer "t5-small-headline-generator/tokenizer.json",
   CellStep.createContext,
   CellStep.dropTable "summarization_models" false,
   CellStep.saveByom "t5-small-headline-generator"
     "t5-small-headline-generator/t5-small-headline-generator_fixed.onnx"
     "summarization_models",
   CellStep.dropTable "summarization_tokenizers" false,
   CellStep.saveByom "t5-small-headline-generator"
     "t5-small-headline-generator/tokenizer.json"
     "summarization_tokenizers",
   CellStep.readFrame "emails.emails",
   CellStep.execSql stmtTok,
   CellStep.execSql stmtScore,
   CellStep.dropTable "emails_processed" false,
   CellStep.execSql stmtDecode,
   CellStep.readFrame "emails_processed",
   CellStep.removeContext]

/-- The English BGE embeddings notebook (second document inside the
SUMMARIZATION.ipynb file), transcribed step by step in source order.
Note: its cell after the export contains only imports; no
make_dim_param_fixed or onnx.helper.make_model call appears anywhere in
this notebook, and save_byom uploads the raw exported
bge-small-en-v1.5-onnx/model.onnx.  The db_drop_table calls for
embeddings_models and embeddings_tokenizers are live code, not comments. -/
def embeddingsEnNb : List CellStep :=
  [CellStep.shellExport
     ["bge-small-en-v1.5-onnx/model.onnx",
      "bge-small-en-v1.5-onnx/tokenizer.json",
      "bge-small-en-v1.5-onnx"],
   CellStep.imports,
   CellStep.pyAssign [],
   CellStep.loadTokenizer "bge-small-en-v1.5-onnx",
   CellStep.localInference ExtLib.onnxRuntime
     ["bge-small-en-v1.5-onnx/model.onnx", "mem:tokenizer"],
   CellStep.localInference ExtLib.huggingFace ["hub"],
   CellStep.localInference ExtLib.huggingFace ["mem:local"],
   CellStep.createContext,
   CellStep.dropTable "embeddings_models" true,
   CellStep.saveByom "bge-small-en-v1.5" "bge-small-en-v1.5-onnx/model.onnx"
     "embeddings_models",
   CellStep.dropTable "embeddings_tokenizers" true,
   CellStep.saveByom "bge-small-en-v1.5" "bge-small-en-v1.5-onnx/tokenizer.json"
     "embeddings_tokenizers",
   CellStep.dropTable "emails_embeddings_store" false,
   CellStep.execSql stmtEmbedEn,
   CellStep.readFrame "emails_embeddings_store",
   CellStep.pyAssign ["mem:df:emails_embeddings_store"],
   CellStep.fromQuery stmtDistEn,
   CellStep.removeContext]

/-- The Japanese sentence-BERT embeddings notebook (src/unnamed/part_000),
transcribed step by step in source order.  The db_drop_table call for
emails_embeddings_store_jp is live code, not a comment. -/
def embeddingsJpNb : List CellStep :=
  [CellStep.shellExport
     ["sentence-bert-base-ja-mean-tokens-v2/model.onnx",
      "sentence-bert-base-ja-mean-tokens-v2"],
   CellStep.imports,
   CellStep.loadAndPatch "sentence-bert-base-ja-mean-tokens-v2/model.onnx" 16 8,
   CellStep.fixDim "batch_size" 1,
   CellStep.fixDim "sequence_length" 512,
   CellStep.fixDim "Concatsentence_embedding_dim_1" 768,
   CellStep.removeOutputLoop "token_embeddings",
   CellStep.saveOnnx "sentence-bert-base-ja-mean-tokens-v2/model_fixed.onnx",
   CellStep.pyAssign [],
   CellStep.loadTokenizer "sentence-bert-base-ja-mean-tokens-v2",
   CellStep.localInference ExtLib.onnxRuntime
     ["sentence-bert-base-ja-mean-tokens-v2/model_fixed.onnx", "mem:tokenizer"],
   CellStep.localInference ExtLib.huggingFace ["hub"],
   CellStep.localInference ExtLib.huggingFace ["mem:local"],
   CellStep.loadTokenizer "sentence-bert-base-ja-mean-tokens-v2",
   CellStep.saveTokenizer "sentence-bert-base-ja-mean-tokens-v2-tokenizer/tokenizer.json",
   CellStep.createContext,
   CellStep.dropTable "embeddings_models_jp" false,
   CellStep.saveByom "sentence-bert-base-ja-mean-tokens-v2"
     "sentence-bert-base-ja-mean-tokens-v2/model_fixed.onnx"
     "embeddings_models_jp",
   CellStep.dropTable "embeddings_tokenizers_jp" false,
   CellStep.saveByom "sentence-bert-base-ja-mean-tokens-v2"
     "sentence-bert-base-ja-mean-tokens-v2-tokenizer/tokenizer.json"
     "embeddings_tokenizers_jp",
   CellStep.readFrame "emails.emails_jp",
   CellStep.execSql stmtTokJp,
   CellStep.readFrame "v_emails_tokenized_for_embeddings_jp",
   CellStep.execSql stmtScoreJp,
   CellStep.dropTable "emails_embeddings_store_jp" true,
   CellStep.execSql stmtVecCols,
   CellStep.readFrame "emails_embeddings_store_jp",
   CellStep.pyAssign ["mem:df:emails_embeddings_store_jp"],
   CellStep.fromQuery stmtDistJp,
   CellStep.removeContext]

/-- All three notebook pipelines of the repository. -/
def allNotebooks : List (List CellStep) :=
  [summarizationNb, embeddingsEnNb, embeddingsJpNb]

/-- Artifacts a step produces: files written, in-memory objects bound,
the session opened, tables created by save_byom, and tables or views
created by a SQL statement.  readFrame binds a client-side dataframe
handle named after the table it reads. -/
def produces : CellStep → List String
  | CellStep.shellExport outs => outs
  | CellStep.loadAndPatch _ _ _ => ["mem:model_ir8"]
  | CellStep.saveOnnx f => [f]
  | CellStep.loadTokenizer _ => ["mem:tokenizer"]
  | CellStep.saveTokenizer f => [f]
  | CellStep.localInference _ _ => ["mem:local"]
  | CellStep.createContext => ["session"]
  | CellStep.saveByom _ _ t => [t]
  | CellStep.execSql s => s.creates.toList
  | CellStep.readFrame n => ["mem:df:" ++ n]
  | _ => []

/-- Artifacts a step consumes: files read, in-memory objects used, the
session for database calls, and the tables and views a SQL statement's ON
and FROM clauses read. -/
def consumes : CellStep → List String
  | CellStep.loadAndPatch f _ _ => [f]
  | CellStep.fixDim _ _ => ["mem:model_ir8"]
  | CellStep.removeOutputLoop _ => ["mem:model_ir8"]
  | CellStep.saveOnnx _ => ["mem:model_ir8"]
  | CellStep.loadTokenizer src => [src]
  | CellStep.saveTokenizer _ => ["mem:tokenizer"]
  | CellStep.localInference _ uses => uses
  | CellStep.pyAssign uses => uses
  | CellStep.removeContext => ["session"]
  | CellStep.saveByom _ f _ => ["session", f]
  | CellStep.dropTable _ active => if active then ["session"] else []
  | CellStep.execSql s => "session" :: s.reads
  | CellStep.fromQuery s => "session" :: s.reads
  | CellStep.readFrame n => ["session", n]
  | _ => []

/-- Artifacts that exist before any notebook runs: the demo email tables
and the Hugging Face model hub. -/
def preExisting : List String := ["emails.emails", "emails.emails_jp", "hub"]

/-- Checks that each step only consumes artifacts that are pre-existing
or produced by an earlier step, threading the set of available artifacts
through the step list. -/
def wellOrderedFrom : List CellStep → List String → Bool
  | [], _ => true
  | s :: rest, avail =>
      (consumes s).all (fun a => avail.contains a) &&
      wellOrderedFrom rest (produces s ++ avail)

/-- A pipeline is dependency-well-ordered when no step consumes a table,
view, file, or object that only a later step produces. -/
def wellOrdered (p : List CellStep) : Bool :=
  wellOrderedFrom p preExisting

/-- The step exports a model via a shell command. -/
def isExport : CellStep → Bool
  | CellStep.shellExport _ => true
  | _ => false

/-- The step patches the ONNX metadata: setting opset and IR versions,
fixing a dynamic dimension, removing an output, or saving the patched
model. -/
def isPatch : CellStep → Bool
  | CellStep.loadAndPatch _ _ _ => true
  | CellStep.fixDim _ _ => true
  | CellStep.removeOutputLoop _ => true
  | CellStep.saveOnnx _ => true
  | _ => false

/-- The step uploads an artifact to the database via save_byom. -/
def isUpload : CellStep → Bool
  | CellStep.saveByom _ _ _ => true
  | _ => false

/-- The step executes a templated SQL statement invoking table operators. -/
def isSqlOp : CellStep → Bool
  | CellStep.execSql _ => true
  | CellStep.fromQuery _ => true
  | _ => false

/-- Every step satisfying f occurs strictly before every step satisfying
g in the pipeline. -/
def beforeAll (f g : CellStep → Bool) (p : List CellStep) : Bool :=
  p.enum.all fun a =>
    !(f a.2) || p.enum.all fun b => !(g b.2) || (!(g a.2) && a.1 < b.1 || !(f b.2) && a.1 < b.1 || a == b)

/-- Tables and views a pipeline itself creates: save_byom target tables
and the objects created by its SQL statements. -/
def madeTables (p : List CellStep) : List String :=
  p.flatMap fun s =>
    match s with
    | CellStep.saveByom _ _ t => [t]
    | CellStep.execSql st => st.creates.toList
    | _ => []

/-- The step reads pipeline results back as a dataframe: a readFrame of a
table or view the pipeline created, or a DataFrame.from_query call. -/
def isResultRead (p : List CellStep) (s : CellStep) : Bool :=
  match s with
  | CellStep.readFrame n => (madeTables p).contains n
  | CellStep.fromQuery _ => true
  | _ => false

/-- Some result-reading step occurs at or after every SQL-operator step,
so the pipeline's results are read back at the end. -/
def finalReadOk (p : List CellStep) : Bool :=
  p.enum.any fun a =>
    isResultRead p a.2 && (p.enum.all fun b => !(isSqlOp b.2) || b.1 ≤ a.1)

/-- The export, patch, upload, and SQL-operator phases that occur in the
pipeline appear in that order. -/
def phasesOrdered (p : List CellStep) : Bool :=
  beforeAll isExport isPatch p && beforeAll isExport isUpload p &&
  beforeAll isExport isSqlOp p && beforeAll isPatch isUpload p &&
  beforeAll isPatch isSqlOp p && beforeAll isUpload isSqlOp p

/-- All five workflow phases occur in the pipeline: export, metadata
patch, upload, SQL-operator invocation, and a final read of results. -/
def phasesAllOccur (p : List CellStep) : Bool :=
  p.any isExport && p.any isPatch && p.any isUpload && p.any isSqlOp &&
  p.any (fun s => isResultRead p s)

/-- The fixed linear workflow asserted for a pipeline: all five phases
occur, in order, results are read last, and no step consumes an artifact
only a later step produces. -/
def linearWorkflow (p : List CellStep) : Bool :=
  wellOrdered p && phasesOrdered p && phasesAllOccur p && finalReadOk p

/-- All operator calls of the SQL statements a pipeline executes. -/
def sqlCalls (p : List CellStep) : List OpCall :=
  p.flatMap fun s =>
    match s with
    | CellStep.execSql st => st.calls
    | CellStep.fromQuery st => st.calls
    | _ => []

/-- All SQL statements a pipeline executes via execute_sql or from_query. -/
def sqlStmts (p : List CellStep) : List SqlStmt :=
  p.flatMap fun s =>
    match s with
    | CellStep.execSql st => [st]
    | CellStep.fromQuery st => [st]
    | _ => []

/-- The operator names invoked by a pipeline's SQL statements, in order. -/
def opsInvoked (p : List CellStep) : List String :=
  (sqlCalls p).map OpCall.opName

/-- Looks up a numeric USING-clause option by key. -/
def getNum (opts : List UsingOpt) (k : String) : Option Int :=
  (opts.find? (fun o => o.key == k)).bind fun o =>
    match o.val with
    | OptVal.num v => some v
    | _ => none

/-- Looks up a string USING-clause option by key. -/
def getStr (opts : List UsingOpt) (k : String) : Option String :=
  (opts.find? (fun o => o.key == k)).bind fun o =>
    match o.val with
    | OptVal.str v => some v
    | _ => none

/-- The option lists of all calls of a given operator in a pipeline. -/
def callsOf (p : List CellStep) (op : String) : List (List UsingOpt) :=
  ((sqlCalls p).filter (fun c => c.opName == op)).map OpCall.opts

/-- The value a pipeline fixes a named dynamic ONNX dimension to, if any. -/
def fixDimVal (p : List CellStep) (d : String) : Option Nat :=
  p.findSome? fun s =>
    match s with
    | CellStep.fixDim dim size => if dim == d then some size else none
    | _ => none

/-- A Teradata column-range expression over columns c0 .. chi, as written
in TargetFeatureColumns and RefFeatureColumns. -/
def colRange (c : String) (lo hi : Nat) : String :=
  "[" ++ c ++ toString lo ++ ":" ++ c ++ toString hi ++ "]"

/-- The OutputFormat value requesting a fixed-length FLOAT32 vector. -/
def floatFmt (n : Nat) : String :=
  "FLOAT32(" ++ toString n ++ ")"

/-- The change a step makes to the number of open database sessions:
tdml.create_context opens one, tdml.remove_context closes one. -/
def sessionDelta : CellStep → Int
  | CellStep.createContext => 1
  | CellStep.removeContext => -1
  | _ => 0

/-- Checks, starting from k open sessions, that no step closes a session
that is not open and that all sessions are closed at the end. -/
def sessionOkFrom : List CellStep → Int → Bool
  | [], k => k == 0
  | s :: rest, k =>
      let k2 := k + sessionDelta s
      decide (0 ≤ k2) && sessionOkFrom rest k2

/-- Every session the pipeline opens is closed before it ends, and no
close occurs without a matching earlier open. -/
def sessionBalanced (p : List CellStep) : Bool :=
  sessionOkFrom p 0

/-- The db_drop_table statements of a pipeline with their activity flag:
true when the call is live code, false when it is commented out. -/
def dropStmts (p : List CellStep) : List (String × Bool) :=
  p.flatMap fun s =>
    match s with
    | CellStep.dropTable t a => [(t, a)]
    | _ => []

/-- The tables a pipeline actively drops on a run (db_drop_table calls
that are not commented out). -/
def activeDrops (p : List CellStep) : List String :=
  ((dropStmts p).filter (fun d => d.2)).map (fun d => d.1)

/-- Every table a pipeline actively drops is recreated by a later step of
the same pipeline. -/
def dropsRecreated (p : List CellStep) : Bool :=
  p.enum.all fun a =>
    match a.2 with
    | CellStep.dropTable t true =>
        p.enum.any fun b => a.1 < b.1 && (produces b.2).contains t
    | _ => true

/-- The pipeline contains a try/except exception handler. -/
def hasTryExcept (p : List CellStep) : Bool :=
  p.any fun s => s == CellStep.tryExcept

/-- The python-level loops of a pipeline, by the output name each loop
filters from the ONNX graph. -/
def loopsOf (p : List CellStep) : List String :=
  p.flatMap fun s =>
    match s with
    | CellStep.removeOutputLoop n => [n]
    | _ => []

/-- The body of the Japanese notebook's loop, with the exact semantics of
the python statement: for node in outputs, if node is the target then
outputs.remove(node); the iteration index advances each round even when
an element was removed, exactly as a python for-statement does.  The fuel
argument bounds the rounds by the initial list length, which suffices
because the index grows every round and the list never grows. -/
def pyForRemoveAux (target : String) : Nat → List String → Nat → List String
  | 0, l, _ => l
  | fuel + 1, l, i =>
      if h : i < l.length then
        if l[i] == target then pyForRemoveAux target fuel (l.eraseIdx i) (i + 1)
        else pyForRemoveAux target fuel l (i + 1)
      else l

/-- The python loop removing the named output from the ONNX graph's
output list. -/
def pyForRemove (target : String) (l : List String) : List String :=
  pyForRemoveAux target l.length l 0

/-- Modelled from the spec: the vendor function tdml.save_byom is not in
the repository; per the spec's external-interfaces section it is "a
model-registration call that inserts a named model blob into a designated
table".  A table is a list of (model id, blob) rows and save_byom inserts
the one new row. -/
def save_byom (modelId blob : String) (tbl : List (String × String)) :
    List (String × String) :=
  tbl ++ [(modelId, blob)]

/-- The file name carries the .onnx extension. -/
def isOnnxFile (f : String) : Bool :=
  List.isSuffixOf ".onnx".data f.data

/-- The ONNX files a pipeline uploads to the database via save_byom,
paired with the model id they are registered under. -/
def onnxUploads (p : List CellStep) : List (String × String) :=
  p.flatMap fun s =>
    match s with
    | CellStep.saveByom m f _ => if isOnnxFile f then [(m, f)] else []
    | _ => []

/-- The files the pipeline writes with onnx.save, i.e. the models that
went through the in-notebook metadata patching before being saved. -/
def patchedFiles (p : List CellStep) : List String :=
  p.flatMap fun s =>
    match s with
    | CellStep.saveOnnx f => [f]
    | _ => []

/-- Every ONNX model file the pipeline uploads via save_byom was written
by the in-notebook patching step (onnx.save of the dimension-fixed,
opset-pinned model). -/
def onnxUploadsPatched (p : List CellStep) : Bool :=
  (onnxUploads p).all fun u => (patchedFiles p).contains u.2

/-- Where a step's computation on the data runs, when it computes on the
data at all: SQL-operator steps run inside the database engine, and the
local validation steps run inside onnxruntime or the Hugging Face
libraries.  Metadata patching, assignments, imports, file saves, and
connection management perform no computation on the data. -/
def dataComputeSite : CellStep → Option (Option ExtLib)
  | CellStep.execSql _ => some none
  | CellStep.fromQuery _ => some none
  | CellStep.localInference lib _ => some (some lib)
  | _ => none

/-- The engines running the pipeline's local (client-side) computations. -/
def localComputeLibs (p : List CellStep) : List ExtLib :=
  p.flatMap fun s =>
    match s with
    | CellStep.localInference lib _ => [lib]
    | _ => []

/-- No step of the pipeline computes on the data in plain notebook
python: every data computation runs inside the database engine (SQL
operator steps) or inside the external onnxruntime or Hugging Face
libraries. -/
def noLocalPythonCompute (p : List CellStep) : Bool :=
  p.all fun s =>
    match dataComputeSite s with
    | some (some lib) => !(lib == ExtLib.pythonLocal)
    | _ => true

/-- A row of the embedding store: its id and its payload columns. -/
structure StoreRow where
  id : Int
  payload : String
deriving DecidableEq

/-- The target set of the semantic-search step, as in the source:
tdf_embeddings_store[tdf_embeddings_store.id == 3]. -/
def tdf_embeddings_store_tgt (store : List StoreRow) : List StoreRow :=
  store.filter fun r => r.id == 3

/-- The reference set of the semantic-search step, as in the source:
tdf_embeddings_store[tdf_embeddings_store.id != 3]. -/
def tdf_embeddings_store_ref (store : List StoreRow) : List StoreRow :=
  store.filter fun r => r.id != 3

/-- The SQL statement kinds the spec allows for executed statements. -/
def allowedKinds : List SqlKind :=
  [SqlKind.createTable, SqlKind.replaceView, SqlKind.select]

/-- The table-operator names the spec allows. -/
def allowedOps : List String :=
  ["tokenizer_encode", "IVSM_score", "tokenizer_decode",
   "ONNXEmbeddings", "vector_to_columns", "TD_VECTORDISTANCE"]

/-- The claim C4 property of one SQL statement: it is a CREATE TABLE,
REPLACE VIEW, or SELECT; it invokes at least one table operator; every
operator it invokes is drawn from the allowed set; and every operator is
configured through a list of string-keyed options. -/
def stmtAllowed (st : SqlStmt) : Bool :=
  allowedKinds.contains st.kind &&
  !st.calls.isEmpty &&
  st.calls.all fun c =>
    allowedOps.contains c.opName &&
    !c.opts.isEmpty &&
    c.opts.all fun o => !o.key.isEmpty

/-- Claim C1 (counterexample): the claim that every demo pipeline runs
the five steps export, ONNX-metadata patch, upload, operator invocation,
and result read in that fixed order is false on the code: the English
embeddings pipeline contains no metadata-patching step at all (its cell
after the export holds only imports), so the notebooks do not all follow
the five-step linear workflow. -/
theorem en_pipeline_missing_patch_phase :
    allNotebooks.all linearWorkflow = false ∧
    phasesAllOccur embeddingsEnNb = false ∧
    embeddingsEnNb.filter isPatch = [] := by
  decide

/-- Claim C1 (amended): in every pipeline no step consumes a table, view,
or file that only a later step produces, and the phases that do occur
appear in the order export, patch, upload, operator invocation, final
result read; the summarization and Japanese embedding pipelines contain
all five phases, while the English embeddings pipeline lacks the
metadata-patch phase. -/
theorem pipelines_linear_workflow_amended :
    (allNotebooks.all fun p => wellOrdered p && phasesOrdered p && finalReadOk p) = true ∧
    linearWorkflow summarizationNb = true ∧
    linearWorkflow embeddingsJpNb = true := by
  decide

/-- Claim C2 (code bug, evaluated at the failing input): the summarization
and Japanese pipelines upload only ONNX files written by the in-notebook
patching step, but the English embeddings pipeline uploads the raw
exported bge-small-en-v1.5-onnx/model.onnx even though its own markdown
says the dimension and opset fixes are performed: it contains no patch
step and the uploaded file was never written by onnx.save of a patched
model. -/
theorem en_pipeline_uploads_unpatched_onnx :
    onnxUploadsPatched summarizationNb = true ∧
    onnxUploadsPatched embeddingsJpNb = true ∧
    onnxUploadsPatched embeddingsEnNb = false ∧
    onnxUploads embeddingsEnNb = [("bge-small-en-v1.5", "bge-small-en-v1.5-onnx/model.onnx")] ∧
    patchedFiles embeddingsEnNb = [] := by
  decide

/-- Claim C3 (counterexample): the claim that every db_drop_table
statement is commented out is false on the code: the English embeddings
notebook and the Japanese embeddings notebook each contain live
db_drop_table calls. -/
theorem active_drop_statements_exist :
    (allNotebooks.all fun p => (activeDrops p).isEmpty) = false := by
  decide

/-- Claim C3 (amended): the notebooks contain no exception handling, and
in the summarization notebook every db_drop_table statement is commented
out; but the English embeddings notebook actively drops embeddings_models
and embeddings_tokenizers, and the Japanese one actively drops
emails_embeddings_store_jp, each table being recreated by a later step of
the same run. -/
theorem drop_statements_status :
    activeDrops summarizationNb = [] ∧
    activeDrops embeddingsEnNb = ["embeddings_models", "embeddings_tokenizers"] ∧
    activeDrops embeddingsJpNb = ["emails_embeddings_store_jp"] ∧
    (allNotebooks.all fun p => !hasTryExcept p) = true ∧
    allNotebooks.all dropsRecreated = true := by
  decide

/-- Claim C4 (confirmed): every SQL statement the notebooks execute via
execute_sql or DataFrame.from_query is a CREATE TABLE, REPLACE VIEW, or
SELECT, invokes at least one table operator, every operator it invokes is
one of tokenizer_encode, IVSM_score, tokenizer_decode, ONNXEmbeddings,
vector_to_columns, TD_VECTORDISTANCE, and every operator is configured
through a nonempty list of string-keyed options. -/
theorem sql_statements_allowed :
    (allNotebooks.all fun p => (sqlStmts p).all stmtAllowed) = true ∧
    (allNotebooks.all fun p => !(sqlStmts p).isEmpty) = true := by
  decide

/-- Claim C5 (confirmed): the computational steps on the data run inside
the database engine (the SQL operator invocations listed per pipeline:
tokenization, beam-search scoring, detokenization, embedding inference,
vector explosion, cosine-distance top-k) or inside the external
onnxruntime and Hugging Face libraries (the local validation cells);
no step computes on the data in plain notebook python. -/
theorem computation_sites_external :
    opsInvoked summarizationNb = ["tokenizer_encode", "IVSM_score", "tokenizer_decode"] ∧
    opsInvoked embeddingsEnNb = ["ONNXEmbeddings", "TD_VECTORDISTANCE"] ∧
    opsInvoked embeddingsJpNb =
      ["tokenizer_encode", "IVSM_score", "vector_to_columns", "TD_VECTORDISTANCE"] ∧
    allNotebooks.all noLocalPythonCompute = true ∧
    (allNotebooks.all fun p =>
      (localComputeLibs p).all fun l => !(l == ExtLib.pythonLocal)) = true := by
  decide

/-- Claim C6 (confirmed): the Japanese pipeline fixes the model's
sentence-embedding output dimension to 768, explodes the binary vector
with VectorLength 768 into float columns named with the emb_ column
prefix, and its TD_VECTORDISTANCE call reads exactly the column range
emb_0 through emb_767; the English pipeline requests FLOAT32(384) output
vectors and its TD_VECTORDISTANCE call reads exactly emb_0 through
emb_383. -/
theorem embedding_dimensions_consistent :
    fixDimVal embeddingsJpNb "Concatsentence_embedding_dim_1" = some 768 ∧
    ((callsOf embeddingsJpNb "vector_to_columns").all fun o =>
      getNum o "VectorLength" == some 768 && getStr o "OutputColumnPrefix" == some "emb_") = true ∧
    (callsOf embeddingsJpNb "vector_to_columns").length = 1 ∧
    ((callsOf embeddingsJpNb "TD_VECTORDISTANCE").all fun o =>
      getStr o "TargetFeatureColumns" == some (colRange "emb_" 0 (768 - 1)) &&
      getStr o "RefFeatureColumns" == some (colRange "emb_" 0 (768 - 1))) = true ∧
    (callsOf embeddingsJpNb "TD_VECTORDISTANCE").length = 1 ∧
    ((callsOf embeddingsEnNb "ONNXEmbeddings").all fun o =>
      getStr o "OutputFormat" == some (floatFmt 384)) = true ∧
    (callsOf embeddingsEnNb "ONNXEmbeddings").length = 1 ∧
    ((callsOf embeddingsEnNb "TD_VECTORDISTANCE").all fun o =>
      getStr o "TargetFeatureColumns" == some (colRange "emb_" 0 (384 - 1)) &&
      getStr o "RefFeatureColumns" == some (colRange "emb_" 0 (384 - 1))) = true ∧
    (callsOf embeddingsEnNb "TD_VECTORDISTANCE").length = 1 := by
  decide

/-- Claim C7 (confirmed): both pipelines that fix the exported model's
sequence_length dimension fix it to 512, and every in-database
tokenizer_encode invocation in the repository uses MaxLength 512 with
PadToMaxLength True, so every token-id array and attention mask handed to
a model has exactly the length the model was fixed to. -/
theorem sequence_length_consistent :
    fixDimVal summarizationNb "sequence_length" = some 512 ∧
    fixDimVal embeddingsJpNb "sequence_length" = some 512 ∧
    (allNotebooks.all fun p =>
      (callsOf p "tokenizer_encode").all fun o =>
        getNum o "MaxLength" == some 512 && getStr o "PadToMaxLength" == some "True") = true ∧
    (callsOf summarizationNb "tokenizer_encode").length = 1 ∧
    (callsOf embeddingsJpNb "tokenizer_encode").length = 1 := by
  decide

/-- Claim C8 (confirmed): in every notebook each session opened with
create_context is closed by remove_context before the notebook ends and
no close occurs without an open, so no session remains open at the end of
a run; and save_byom (modelled from the spec) inserts exactly one named
model blob into its designated table, preserving the existing rows. -/
theorem sessions_closed_and_byom_inserts_one :
    allNotebooks.all sessionBalanced = true ∧
    ∀ (m b : String) (tbl : List (String × String)),
      (save_byom m b tbl).length = tbl.length + 1 ∧
      (m, b) ∈ save_byom m b tbl ∧
      ∀ r : String × String, r ∈ tbl → r ∈ save_byom m b tbl := by
  refine ⟨by decide, fun m b tbl => ⟨?_, ?_, ?_⟩⟩
  · simp [save_byom]
  · simp [save_byom]
  · intro r hr
    simp [save_byom]
    exact Or.inl hr

/-- Claim C8 (witness): applying the theorem at a concrete model id,
blob, and one-row table. -/
theorem sessions_closed_and_byom_inserts_one_witness :
    (save_byom "m1" "blob1" [("m0", "blob0")]).length = 2 ∧
    ("m1", "blob1") ∈ save_byom "m1" "blob1" [("m0", "blob0")] ∧
    ("m0", "blob0") ∈ save_byom "m1" "blob1" [("m0", "blob0")] := by
  have h := sessions_closed_and_byom_inserts_one.2 "m1" "blob1" [("m0", "blob0")]
  exact ⟨h.1, h.2.1, h.2.2 ("m0", "blob0") (by decide)⟩

/-- Claim C9 (counterexample): the claim that the repository's code
contains no loop is false on the code: the Japanese embeddings notebook
contains a for-loop over the ONNX graph's outputs removing the
token_embeddings output. -/
theorem loop_step_exists :
    (allNotebooks.all fun p => (loopsOf p).isEmpty) = false := by
  decide

/-- Claim C9 (amended): the only loop in the repository is the Japanese
notebook's single bounded for-loop over the model's finite output list;
it terminates and removes the token_embeddings output, every pipeline is
a fixed finite sequence of steps, and there is no exception handler or
persistent process, so every run terminates. -/
theorem single_bounded_loop_terminates :
    loopsOf summarizationNb = [] ∧
    loopsOf embeddingsEnNb = [] ∧
    loopsOf embeddingsJpNb = ["token_embeddings"] ∧
    pyForRemove "token_embeddings" ["token_embeddings", "sentence_embedding"] =
      ["sentence_embedding"] ∧
    summarizationNb.length = 23 ∧
    embeddingsEnNb.length = 18 ∧
    embeddingsJpNb.length = 30 ∧
    (allNotebooks.all fun p => !hasTryExcept p) = true := by
  decide

/-- Claim C10 (confirmed): the target set (rows with id equal to 3) and
the reference set (rows with id not equal to 3) of the semantic-search
step are disjoint and together cover the embedding store, and a target
row never shares an id with a reference row, so TD_VECTORDISTANCE never
compares an email's embedding against itself. -/
theorem target_reference_partition (store : List StoreRow) (t u v : StoreRow)
    (ht : t ∈ tdf_embeddings_store_tgt store)
    (hu : u ∈ tdf_embeddings_store_ref store)
    (hv : v ∈ store) :
    t.id ≠ u.id ∧ t ≠ u ∧
    (v ∈ tdf_embeddings_store_tgt store ∨ v ∈ tdf_embeddings_store_ref store) ∧
    ¬ (v ∈ tdf_embeddings_store_tgt store ∧ v ∈ tdf_embeddings_store_ref store) := by
  have h1 := List.mem_filter.mp ht
  have h2 := List.mem_filter.mp hu
  have e1 : t.id = 3 := by simpa using h1.2
  have e2 : u.id ≠ 3 := by simpa using h2.2
  refine ⟨?_, ?_, ?_, ?_⟩
  · intro h
    exact e2 (h ▸ e1)
  · intro h
    exact e2 (h ▸ e1)
  · by_cases hid : v.id = 3
    · exact Or.inl (List.mem_filter.mpr ⟨hv, by simpa using hid⟩)
    · exact Or.inr (List.mem_filter.mpr ⟨hv, by simpa using hid⟩)
  · rintro ⟨ha, hb⟩
    have x1 : v.id = 3 := by simpa using (List.mem_filter.mp ha).2
    have x2 : v.id ≠ 3 := by simpa using (List.mem_filter.mp hb).2
    exact x2 x1

/-- Claim C10 (witness): applying the theorem on a concrete two-row
embedding store. -/
theorem target_reference_partition_witness :
    (⟨3, "a"⟩ : StoreRow) ∈ tdf_embeddings_store_tgt [⟨3, "a"⟩, ⟨1, "b"⟩] ∧
    (⟨1, "b"⟩ : StoreRow) ∈ tdf_embeddings_store_ref [⟨3, "a"⟩, ⟨1, "b"⟩] ∧
    (⟨1, "b"⟩ : StoreRow) ∈ ([⟨3, "a"⟩, ⟨1, "b"⟩] : List StoreRow) ∧
    (⟨3, "a"⟩ : StoreRow).id ≠ (⟨1, "b"⟩ : StoreRow).id := by
  refine ⟨by decide, by decide, by decide, ?_⟩
  exact (target_reference_partition [⟨3, "a"⟩, ⟨1, "b"⟩] ⟨3, "a"⟩ ⟨1, "b"⟩ ⟨1, "b"⟩
    (by decide) (by decide) (by decide)).1
